import Mathlib

/-!
Verification of the Python-graphics repository: the sunset animation scripts
(sunset.py, extension.py) and the Canvas wrapper (graphics.py).

Coordinates are modelled as rationals: every numeric constant of the scripts
(600, 300, 70, 300 * (1 / 3) = 100, 300 * (2 / 3) = 200, the thresholds 65 and
165, and the per-frame deltas 1 and 0.8) is exactly representable, so rational
arithmetic agrees with the source arithmetic on everything the claims mention.
-/

namespace Sunset

/-- Width of drawing canvas in pixels (CANVAS_WIDTH in sunset.py and extension.py). -/
def CANVAS_WIDTH : ℚ := 600

/-- Height of drawing canvas in pixels (CANVAS_HEIGHT in sunset.py and extension.py). -/
def CANVAS_HEIGHT : ℚ := 300

/-- Width and height of the sun oval (SUN_SIZE in sunset.py and extension.py). -/
def SUN_SIZE : ℚ := 70

/-- The sun turns orange when the middle of the sun passes this y location
(ORANGE_Y = CANVAS_HEIGHT * (1 / 3) in both scripts). -/
def ORANGE_Y : ℚ := CANVAS_HEIGHT * (1 / 3)

/-- The sun turns red when the middle of the sun passes this y location
(RED_Y = CANVAS_HEIGHT * (2 / 3) in both scripts). -/
def RED_Y : ℚ := CANVAS_HEIGHT * (2 / 3)

/-- get_sun_color of sunset.py (identical in extension.py): picks the fill
color from the top edge of the sun oval. -/
def get_sun_color (top_y : ℚ) : String :=
  if top_y > RED_Y - SUN_SIZE / 2 then "red"
  else if top_y > ORANGE_Y - SUN_SIZE / 2 then "orange"
  else "yellow"

/-- is_off_screen of sunset.py (identical in extension.py): the loop exit
predicate on the top edge of the sun oval. -/
def is_off_screen (top_y : ℚ) : Bool :=
  decide (top_y ≥ CANVAS_HEIGHT)

/-- The while loop of sunset.py main, as a fuel-indexed function of the sun
top edge: test is_off_screen, otherwise move the sun down by 1 and repeat.
Returns the top edge at loop exit, or none when the fuel runs out. -/
def runSunsetLoop : ℚ → ℕ → Option ℚ
  | top_y, 0 => if is_off_screen top_y then some top_y else none
  | top_y, fuel + 1 =>
    if is_off_screen top_y then some top_y
    else runSunsetLoop (top_y + 1) fuel

/-- The while loop of extension.py main, as a fuel-indexed function of the sun
top edge: test is_off_screen, otherwise move the sun down by 0.8 and repeat. -/
def runExtensionLoop : ℚ → ℕ → Option ℚ
  | top_y, 0 => if is_off_screen top_y then some top_y else none
  | top_y, fuel + 1 =>
    if is_off_screen top_y then some top_y
    else runExtensionLoop (top_y + 0.8) fuel

/-- Top edge of the sun after k iterations of the sunset.py loop body: it
starts at 0 and each iteration executes canvas.move(cir, 0, 1). -/
def sunsetTopY (k : ℕ) : ℚ := k

/-- Fill color applied at the end of iteration k of the sunset.py loop body:
get_sun_color evaluated at the current top edge, nothing else. -/
def sunsetColorAt (k : ℕ) : String := get_sun_color (sunsetTopY k)

/-- Rank of a color in the YELLOW to ORANGE to RED progression. -/
def colorRank (c : String) : ℕ :=
  if c = "red" then 2 else if c = "orange" then 1 else 0

theorem get_sun_color_mono {y z : ℚ} (h : y ≤ z) :
    colorRank (get_sun_color y) ≤ colorRank (get_sun_color z) := by
  unfold get_sun_color
  split_ifs <;> first | (exfalso; linarith) | decide

/-- C1: get_sun_color returns red iff y > RED_Y - SUN_SIZE/2, orange iff
ORANGE_Y - SUN_SIZE/2 < y <= RED_Y - SUN_SIZE/2, and yellow otherwise, with
the constants evaluating to ORANGE_Y = 100, RED_Y = 200, CANVAS_HEIGHT = 300,
SUN_SIZE = 70; it is a total function of the single numeric input. -/
theorem get_sun_color_thresholds (y : ℚ) :
    (get_sun_color y = "red" ↔ y > RED_Y - SUN_SIZE / 2)
    ∧ (get_sun_color y = "orange" ↔
        (ORANGE_Y - SUN_SIZE / 2 < y ∧ y ≤ RED_Y - SUN_SIZE / 2))
    ∧ (get_sun_color y = "yellow" ↔
        ¬ (y > RED_Y - SUN_SIZE / 2)
          ∧ ¬ (ORANGE_Y - SUN_SIZE / 2 < y ∧ y ≤ RED_Y - SUN_SIZE / 2))
    ∧ ORANGE_Y = 100 ∧ RED_Y = 200 ∧ CANVAS_HEIGHT = 300 ∧ SUN_SIZE = 70 := by
  refine ⟨?_, ?_, ?_, by norm_num [ORANGE_Y, CANVAS_HEIGHT],
    by norm_num [RED_Y, CANVAS_HEIGHT], rfl, rfl⟩ <;>
    unfold get_sun_color <;> split_ifs <;> simp_all

/-- C2: along the actual frame sequence of the sunset.py loop, the top edge is
nondecreasing and the sun color only ever advances in rank (yellow to orange
to red), never reverses; the color at each frame is get_sun_color of the
current vertical position and of nothing else. -/
theorem sunset_color_transitions_monotone (i j : ℕ) (h : i ≤ j) :
    sunsetTopY i ≤ sunsetTopY j
    ∧ colorRank (sunsetColorAt i) ≤ colorRank (sunsetColorAt j)
    ∧ sunsetColorAt i = get_sun_color (sunsetTopY i) := by
  have hy : sunsetTopY i ≤ sunsetTopY j := by
    unfold sunsetTopY; exact_mod_cast h
  exact ⟨hy, get_sun_color_mono hy, rfl⟩

theorem sunset_color_transitions_monotone_witness :
    sunsetTopY 1 ≤ sunsetTopY 2
    ∧ colorRank (sunsetColorAt 1) ≤ colorRank (sunsetColorAt 2)
    ∧ sunsetColorAt 1 = get_sun_color (sunsetTopY 1) :=
  sunset_color_transitions_monotone 1 2 (by decide)

theorem runSunsetLoop_countdown (n : ℕ) :
    runSunsetLoop (300 - (n : ℚ)) (n + 1) = some 300 := by
  induction n with
  | zero => simp [runSunsetLoop, is_off_screen, CANVAS_HEIGHT]
  | succ m ih =>
    have hlt : ¬ ((300 : ℚ) - ((m : ℚ) + 1) ≥ 300) := by
      have : (0 : ℚ) < (m : ℚ) + 1 := by positivity
      linarith
    have hstep : (300 : ℚ) - ((m : ℚ) + 1) + 1 = 300 - (m : ℚ) := by ring
    simp only [runSunsetLoop, is_off_screen, CANVAS_HEIGHT, Nat.cast_succ]
    rw [if_neg (by simpa using hlt), hstep]
    exact ih

theorem runExtensionLoop_countdown (n : ℕ) :
    runExtensionLoop (300 - (n : ℚ) * (4 / 5)) (n + 1) = some 300 := by
  induction n with
  | zero => simp [runExtensionLoop, is_off_screen, CANVAS_HEIGHT]
  | succ m ih =>
    have hlt : ¬ ((300 : ℚ) - ((m : ℚ) + 1) * (4 / 5) ≥ 300) := by
      have : (0 : ℚ) < ((m : ℚ) + 1) * (4 / 5) := by positivity
      linarith
    have hstep : (300 : ℚ) - ((m : ℚ) + 1) * (4 / 5) + 0.8 = 300 - (m : ℚ) * (4 / 5) := by
      norm_num; ring
    simp only [runExtensionLoop, is_off_screen, CANVAS_HEIGHT, Nat.cast_succ]
    rw [if_neg (by simpa using hlt), hstep]
    exact ih

theorem runSunsetLoop_exit_off_screen (fuel : ℕ) :
    ∀ y r : ℚ, runSunsetLoop y fuel = some r → is_off_screen r = true := by
  induction fuel with
  | zero =>
    intro y r h
    unfold runSunsetLoop at h
    split at h
    · cases h; assumption
    · cases h
  | succ m ih =>
    intro y r h
    unfold runSunsetLoop at h
    split at h
    · cases h; assumption
    · exact ih _ _ h

theorem runExtensionLoop_exit_off_screen (fuel : ℕ) :
    ∀ y r : ℚ, runExtensionLoop y fuel = some r → is_off_screen r = true := by
  induction fuel with
  | zero =>
    intro y r h
    unfold runExtensionLoop at h
    split at h
    · cases h; assumption
    · cases h
  | succ m ih =>
    intro y r h
    unfold runExtensionLoop at h
    split at h
    · cases h; assumption
    · exact ih _ _ h

/-- C7: both animation loops terminate: starting from top edge 0, the
sunset.py loop (delta 1) exits within 301 checks at top edge 300 and the
extension.py loop (delta 0.8) exits within 376 checks at top edge 300; the
exit predicate is exactly top_y >= CANVAS_HEIGHT, each iteration on which the
predicate is false advances the top edge by exactly the fixed positive delta,
and the loop returns as soon as the predicate is true, a position where it is
indeed true. -/
theorem animation_loops_terminate :
    runSunsetLoop 0 301 = some 300
    ∧ runExtensionLoop 0 376 = some 300
    ∧ (∀ y : ℚ, is_off_screen y = true ↔ y ≥ CANVAS_HEIGHT)
    ∧ (∀ (y r : ℚ) (fuel : ℕ), runSunsetLoop y fuel = some r → is_off_screen r = true)
    ∧ (∀ (y r : ℚ) (fuel : ℕ), runExtensionLoop y fuel = some r → is_off_screen r = true)
    ∧ (∀ (y : ℚ) (fuel : ℕ), is_off_screen y = false →
        runSunsetLoop y (fuel + 1) = runSunsetLoop (y + 1) fuel
        ∧ runExtensionLoop y (fuel + 1) = runExtensionLoop (y + 0.8) fuel)
    ∧ (∀ (y : ℚ) (fuel : ℕ), is_off_screen y = true →
        runSunsetLoop y (fuel + 1) = some y ∧ runExtensionLoop y (fuel + 1) = some y) := by
  refine ⟨?_, ?_, ?_, ?_, ?_, ?_, ?_⟩
  · have h := runSunsetLoop_countdown 300
    norm_num at h
    exact h
  · have h := runExtensionLoop_countdown 375
    norm_num at h
    exact h
  · intro y
    simp [is_off_screen]
  · intro y r fuel h
    exact runSunsetLoop_exit_off_screen fuel y r h
  · intro y r fuel h
    exact runExtensionLoop_exit_off_screen fuel y r h
  · intro y fuel h
    refine ⟨?_, ?_⟩
    · simp only [runSunsetLoop]
      rw [if_neg (by simp_all)]
    · simp only [runExtensionLoop]
      rw [if_neg (by simp_all)]
  · intro y fuel h
    refine ⟨?_, ?_⟩
    · simp only [runSunsetLoop]
      rw [if_pos h]
    · simp only [runExtensionLoop]
      rw [if_pos h]

end Sunset

namespace Graphics

/-- Kinds of graphical objects the scripts create on the canvas (the string
returned by tkinter Canvas.type for the item). -/
inductive ShapeKind
  | oval
  | rectangle
  | text
  | image
deriving DecidableEq

/-- A graphical object as the wrapper sees it: its kind and its first
coordinate pair coords[0], coords[1] (the top-left corner for box-shaped
items, the anchor point for text items). -/
structure Shape where
  kind : ShapeKind
  x : ℚ
  y : ℚ
deriving DecidableEq

/-- The Python AttributeError raised when a method that does not exist is
looked up on an object. -/
structure AttributeError where
  msg : String
deriving DecidableEq

/-- The call self.get_width(obj) that get_left_x of graphics.py makes on its
text branch: neither graphics.py nor the tkinter Canvas hierarchy defines a
get_width method (graphics.py only has get_canvas_width, which takes no
object), so the attribute lookup raises AttributeError. -/
def get_width (s : Shape) : Except AttributeError ℚ :=
  Except.error ⟨"Canvas object has no attribute get_width"⟩

/-- The call self.get_height(obj) that get_top_y of graphics.py makes on its
text branch: neither graphics.py nor the tkinter Canvas hierarchy defines a
get_height method (graphics.py only has get_canvas_height, which takes no
object), so the attribute lookup raises AttributeError. -/
def get_height (s : Shape) : Except AttributeError ℚ :=
  Except.error ⟨"Canvas object has no attribute get_height"⟩

/-- get_left_x of graphics.py: coords[0] for non-text items; for a text item
it evaluates coords[0] - self.get_width(obj) / 2, where the get_width lookup
raises and the exception propagates. -/
def get_left_x (s : Shape) : Except AttributeError ℚ :=
  if s.kind ≠ ShapeKind.text then Except.ok s.x
  else
    match get_width s with
    | Except.ok w => Except.ok (s.x - w / 2)
    | Except.error e => Except.error e

/-- get_top_y of graphics.py: coords[1] for non-text items; for a text item
it evaluates coords[1] - self.get_height(obj) / 2, where the get_height
lookup raises and the exception propagates. -/
def get_top_y (s : Shape) : Except AttributeError ℚ :=
  if s.kind ≠ ShapeKind.text then Except.ok s.y
  else
    match get_height s with
    | Except.ok h => Except.ok (s.y - h / 2)
    | Except.error e => Except.error e

/-- move of the underlying canvas: translate the object by (dx, dy); its kind
is unchanged. -/
def move (s : Shape) (dx dy : ℚ) : Shape :=
  { s with x := s.x + dx, y := s.y + dy }

/-- move_to of graphics.py: read the current top-left corner through
get_left_x and get_top_y in that order, then issue the equivalent relative
move; an exception from either read propagates and nothing moves. -/
def move_to (s : Shape) (new_x new_y : ℚ) : Except AttributeError Shape :=
  match get_left_x s with
  | Except.error e => Except.error e
  | Except.ok old_x =>
    match get_top_y s with
    | Except.error e => Except.error e
    | Except.ok old_y => Except.ok (move s (new_x - old_x) (new_y - old_y))

/-- The text item extension.py creates with create_text(200, 130, ...). -/
def textShape : Shape :=
  { kind := ShapeKind.text, x := 200, y := 130 }

/-- C3: the claim fails on the code for text shapes: on the text branch
get_left_x calls self.get_width(obj), a method that exists nowhere on the
class, so move_to on a text shape raises AttributeError and moves nothing.
Here evaluated on the text item extension.py creates, generalized to every
text shape, while on every non-text shape move_to does land the top-left
corner on the requested point. -/
theorem move_to_text_attribute_error :
    move_to textShape 10 20
        = Except.error ⟨"Canvas object has no attribute get_width"⟩
    ∧ (∀ (s : Shape) (new_x new_y : ℚ), s.kind = ShapeKind.text →
        move_to s new_x new_y
          = Except.error ⟨"Canvas object has no attribute get_width"⟩)
    ∧ (∀ (s : Shape) (new_x new_y : ℚ), s.kind ≠ ShapeKind.text →
        ∃ t : Shape, move_to s new_x new_y = Except.ok t
          ∧ get_left_x t = Except.ok new_x ∧ get_top_y t = Except.ok new_y) := by
  refine ⟨rfl, ?_, ?_⟩
  · intro s new_x new_y h
    simp [move_to, get_left_x, get_width, h]
  · intro s new_x new_y h
    refine ⟨move s (new_x - s.x) (new_y - s.y), ?_, ?_, ?_⟩
    · simp [move_to, get_left_x, get_top_y, h]
    · simp [get_left_x, move, h]
    · simp [get_top_y, move, h]

/-- One error value standing for the tkinter.TclError the wrapper raises. -/
structure TclError where
  msg : String
deriving DecidableEq

/-- Host-toolkit itemconfig with a fill option, as documented by the
graphics.py docstrings: image items have no fill channel, so configuring
their fill raises a TclError; ovals, rectangles and text accept a fill. -/
def itemconfigFill (k : ShapeKind) (c : String) : Except TclError Unit :=
  match k, c with
  | ShapeKind.image, _ => Except.error ⟨"unknown option"⟩
  | _, _ => Except.ok ()

/-- Host-toolkit itemconfig with an outline option, as documented by the
graphics.py docstrings: image and text items have no outline channel, so
configuring their outline raises a TclError. -/
def itemconfigOutline (k : ShapeKind) (c : String) : Except TclError Unit :=
  match k, c with
  | ShapeKind.image, _ => Except.error ⟨"unknown option"⟩
  | ShapeKind.text, _ => Except.error ⟨"unknown option"⟩
  | _, _ => Except.ok ()

/-- set_fill_color of graphics.py: one itemconfig attempt; a TclError is
caught and immediately re-raised to the caller with a clearer message. -/
def set_fill_color (k : ShapeKind) (fill_color : String) : Except TclError Unit :=
  match itemconfigFill k fill_color with
  | Except.ok u => Except.ok u
  | Except.error _ => Except.error ⟨"cannot set the fill color on this object"⟩

/-- set_outline_color of graphics.py: one itemconfig attempt; a TclError is
caught and immediately re-raised to the caller with a clearer message. -/
def set_outline_color (k : ShapeKind) (outline_color : String) : Except TclError Unit :=
  match itemconfigOutline k outline_color with
  | Except.ok u => Except.ok u
  | Except.error _ => Except.error ⟨"cannot set the outline color on this object"⟩

/-- C8: for every requested color, set_fill_color on an image, and
set_outline_color on an image or a text item, return an error to the caller
immediately (the single itemconfig attempt is the whole call, so nothing is
retried), while the same calls on kinds that have the channel succeed. -/
theorem incompatible_channel_errors (c : String) :
    set_fill_color ShapeKind.image c
        = Except.error ⟨"cannot set the fill color on this object"⟩
    ∧ set_outline_color ShapeKind.image c
        = Except.error ⟨"cannot set the outline color on this object"⟩
    ∧ set_outline_color ShapeKind.text c
        = Except.error ⟨"cannot set the outline color on this object"⟩
    ∧ set_fill_color ShapeKind.oval c = Except.ok ()
    ∧ set_fill_color ShapeKind.rectangle c = Except.ok ()
    ∧ set_fill_color ShapeKind.text c = Except.ok ()
    ∧ set_outline_color ShapeKind.oval c = Except.ok ()
    ∧ set_outline_color ShapeKind.rectangle c = Except.ok () :=
  ⟨rfl, rfl, rfl, rfl, rfl, rfl, rfl, rfl⟩

/-- A mouse press or release occurrence: the event object's x and y. -/
structure MouseEvent where
  x : ℤ
  y : ℤ
deriving DecidableEq

/-- A keyboard occurrence: the event object's keysym. -/
structure KeyEvent where
  keysym : String
deriving DecidableEq

/-- The input occurrences the canvas binds handlers for. -/
inductive Event
  | mousePress (e : MouseEvent)
  | mouseRelease (e : MouseEvent)
  | keyPress (e : KeyEvent)
deriving DecidableEq

/-- The observable state of a Canvas, as set up by __init__ of graphics.py.
A registered callback is modelled by a Bool flag (is one registered), and a
synchronous call to a callback by appending the event to the corresponding
log, so that delivery to callbacks is observable. -/
structure CanvasState where
  onMousePressedSet : Bool
  onMouseReleasedSet : Bool
  onKeyPressedSet : Bool
  mouse_presses : List MouseEvent
  key_presses : List KeyEvent
  wait_for_click_click_happened : Bool
  currently_waiting_for_click : Bool
  pressedLog : List MouseEvent
  releasedLog : List MouseEvent
  keyLog : List KeyEvent
deriving DecidableEq

/-- The state right after __init__ of graphics.py: no callbacks registered,
both queues empty, both wait flags false. -/
def initCanvas : CanvasState :=
  { onMousePressedSet := false
    onMouseReleasedSet := false
    onKeyPressedSet := false
    mouse_presses := []
    key_presses := []
    wait_for_click_click_happened := false
    currently_waiting_for_click := false
    pressedLog := []
    releasedLog := []
    keyLog := [] }

/-- set_on_mouse_pressed of graphics.py, reduced to whether a callback is now
registered (passing None unregisters). -/
def set_on_mouse_pressed (s : CanvasState) (registered : Bool) : CanvasState :=
  { s with onMousePressedSet := registered }

/-- set_on_mouse_released of graphics.py, reduced to whether a callback is
now registered. -/
def set_on_mouse_released (s : CanvasState) (registered : Bool) : CanvasState :=
  { s with onMouseReleasedSet := registered }

/-- set_on_key_pressed of graphics.py, reduced to whether a callback is now
registered. -/
def set_on_key_pressed (s : CanvasState) (registered : Bool) : CanvasState :=
  { s with onKeyPressedSet := registered }

/-- The private mouse-press handler of graphics.py: when not waiting for a
click and a callback is registered, deliver to the callback; when not waiting
and no callback is registered, append to the mouse_presses list; when waiting
for a click, do nothing. -/
def mouse_pressed (s : CanvasState) (e : MouseEvent) : CanvasState :=
  if !s.currently_waiting_for_click && s.onMousePressedSet then
    { s with pressedLog := s.pressedLog ++ [e] }
  else if !s.currently_waiting_for_click then
    { s with mouse_presses := s.mouse_presses ++ [e] }
  else
    s

/-- The private mouse-release handler of graphics.py: when waiting for a
click, only record that the click happened; otherwise record the flag and
deliver to the release callback when one is registered. -/
def mouse_released (s : CanvasState) (e : MouseEvent) : CanvasState :=
  if s.currently_waiting_for_click then
    { s with wait_for_click_click_happened := true }
  else if s.onMouseReleasedSet then
    { s with wait_for_click_click_happened := true
             releasedLog := s.releasedLog ++ [e] }
  else
    { s with wait_for_click_click_happened := true }

/-- The private key-press handler of graphics.py: deliver to the key callback
when one is registered, otherwise append to the key_presses list; the wait
flags play no role. -/
def key_pressed (s : CanvasState) (e : KeyEvent) : CanvasState :=
  if s.onKeyPressedSet then
    { s with keyLog := s.keyLog ++ [e] }
  else
    { s with key_presses := s.key_presses ++ [e] }

/-- Dispatch of one toolkit event to the bound handler. -/
def handleEvent (s : CanvasState) : Event → CanvasState
  | Event.mousePress e => mouse_pressed s e
  | Event.mouseRelease e => mouse_released s e
  | Event.keyPress e => key_pressed s e

/-- Dispatch of a sequence of toolkit events in arrival order. -/
def handleEvents (s : CanvasState) (es : List Event) : CanvasState :=
  es.foldl handleEvent s

/-- get_new_mouse_clicks of graphics.py: return the buffered list and reset
it to empty. -/
def get_new_mouse_clicks (s : CanvasState) : List MouseEvent × CanvasState :=
  (s.mouse_presses, { s with mouse_presses := [] })

/-- get_new_key_presses of graphics.py: return the buffered list and reset it
to empty. -/
def get_new_key_presses (s : CanvasState) : List KeyEvent × CanvasState :=
  (s.key_presses, { s with key_presses := [] })

/-- Entry of wait_for_click: raise the waiting flag and clear the
click-happened flag. -/
def startWait (s : CanvasState) : CanvasState :=
  { s with currently_waiting_for_click := true
           wait_for_click_click_happened := false }

/-- Exit of wait_for_click: clear both flags. -/
def finishWait (s : CanvasState) : CanvasState :=
  { s with currently_waiting_for_click := false
           wait_for_click_click_happened := false }

/-- The spin of wait_for_click: repeatedly process pending toolkit events
(through update) until the click-happened flag is set; returns the state at
that point together with the events not yet consumed, or none when the event
stream is exhausted with the flag still unset (the call would still block). -/
def waitLoop (s : CanvasState) : List Event → Option (CanvasState × List Event)
  | [] => if s.wait_for_click_click_happened then some (s, []) else none
  | e :: rest =>
    if s.wait_for_click_click_happened then some (s, e :: rest)
    else waitLoop (handleEvent s e) rest

/-- wait_for_click of graphics.py, run against the stream of toolkit events
that arrive while it blocks. -/
def wait_for_click (s : CanvasState) (es : List Event) :
    Option (CanvasState × List Event) :=
  match waitLoop (startWait s) es with
  | none => none
  | some (t, rest) => some (finishWait t, rest)

theorem mouse_pressed_waiting (s : CanvasState) (e : MouseEvent)
    (h : s.currently_waiting_for_click = true) : mouse_pressed s e = s := by
  unfold mouse_pressed
  simp [h]

theorem mouse_released_waiting (s : CanvasState) (e : MouseEvent)
    (h : s.currently_waiting_for_click = true) :
    mouse_released s e = { s with wait_for_click_click_happened := true } := by
  unfold mouse_released
  simp [h]

theorem waitLoop_done (s : CanvasState)
    (h : s.wait_for_click_click_happened = true) (es : List Event) :
    waitLoop s es = some (s, es) := by
  cases es <;> simp [waitLoop, h]

theorem waitLoop_presses (ps : List MouseEvent) :
    ∀ w : CanvasState, w.currently_waiting_for_click = true →
      w.wait_for_click_click_happened = false →
      ∀ (r : MouseEvent) (rest : List Event),
        waitLoop w (ps.map Event.mousePress ++ Event.mouseRelease r :: rest)
          = some ({ w with wait_for_click_click_happened := true }, rest) := by
  induction ps with
  | nil =>
    intro w hw hch r rest
    simp only [List.map_nil, List.nil_append, waitLoop, hch]
    rw [if_neg (by simp [hch])]
    have hrel : handleEvent w (Event.mouseRelease r)
        = { w with wait_for_click_click_happened := true } := by
      simp [handleEvent, mouse_released_waiting w r hw]
    rw [hrel]
    exact waitLoop_done _ rfl rest
  | cons p ps ih =>
    intro w hw hch r rest
    simp only [List.map_cons, List.cons_append, waitLoop]
    rw [if_neg (by simp [hch])]
    have hpress : handleEvent w (Event.mousePress p) = w := by
      simp [handleEvent, mouse_pressed_waiting w p hw]
    rw [hpress]
    exact ih w hw hch r rest

/-- C4: while wait_for_click is blocking, presses and releases are consumed
solely to satisfy the wait: for any number of presses followed by one
release, the call returns exactly at that release, consuming nothing after
it, and the resulting state is finishWait of the starting state, whose
mouse-press queue, key queue and callback logs are those of the starting
state unchanged. -/
theorem wait_for_click_discipline (s : CanvasState) (ps : List MouseEvent)
    (r : MouseEvent) (rest : List Event) :
    wait_for_click s (ps.map Event.mousePress ++ Event.mouseRelease r :: rest)
        = some (finishWait s, rest)
    ∧ (finishWait s).mouse_presses = s.mouse_presses
    ∧ (finishWait s).key_presses = s.key_presses
    ∧ (finishWait s).pressedLog = s.pressedLog
    ∧ (finishWait s).releasedLog = s.releasedLog
    ∧ (finishWait s).keyLog = s.keyLog := by
  refine ⟨?_, rfl, rfl, rfl, rfl, rfl⟩
  unfold wait_for_click
  rw [waitLoop_presses ps (startWait s) (by simp [startWait]) (by simp [startWait]) r rest]
  simp [startWait, finishWait]

/-- C6: each drain call returns the whole buffered queue and resets it to
empty, so a second drain with no intervening event returns the empty list. -/
theorem drain_twice_empty (s : CanvasState) :
    (get_new_mouse_clicks (get_new_mouse_clicks s).2).1 = []
    ∧ (get_new_key_presses (get_new_key_presses s).2).1 = []
    ∧ (get_new_mouse_clicks s).1 = s.mouse_presses
    ∧ (get_new_mouse_clicks s).2.mouse_presses = []
    ∧ (get_new_key_presses s).1 = s.key_presses
    ∧ (get_new_key_presses s).2.key_presses = [] :=
  ⟨rfl, rfl, rfl, rfl, rfl, rfl⟩

theorem handleEvent_preserves_registration (s : CanvasState) (e : Event) :
    (handleEvent s e).onMousePressedSet = s.onMousePressedSet
    ∧ (handleEvent s e).currently_waiting_for_click = s.currently_waiting_for_click := by
  cases e <;>
    · unfold handleEvent mouse_pressed mouse_released key_pressed
      split_ifs <;> exact ⟨rfl, rfl⟩

theorem handleEvent_queue_frozen (s : CanvasState) (e : Event)
    (hcb : s.onMousePressedSet = true) (hw : s.currently_waiting_for_click = false) :
    (handleEvent s e).mouse_presses = s.mouse_presses := by
  cases e with
  | mousePress p => simp [handleEvent, mouse_pressed, hcb, hw]
  | mouseRelease p =>
    unfold handleEvent mouse_released
    split_ifs <;> rfl
  | keyPress p =>
    unfold handleEvent key_pressed
    split_ifs <;> rfl

theorem handleEvents_queue_frozen (es : List Event) :
    ∀ s : CanvasState, s.onMousePressedSet = true →
      s.currently_waiting_for_click = false →
      (handleEvents s es).mouse_presses = s.mouse_presses := by
  induction es with
  | nil => intro s _ _; rfl
  | cons e es ih =>
    intro s hcb hw
    have hflags := handleEvent_preserves_registration s e
    calc (handleEvents s (e :: es)).mouse_presses
        = (handleEvents (handleEvent s e) es).mouse_presses := rfl
      _ = (handleEvent s e).mouse_presses :=
          ih (handleEvent s e) (by rw [hflags.1]; exact hcb) (by rw [hflags.2]; exact hw)
      _ = s.mouse_presses := handleEvent_queue_frozen s e hcb hw

/-- C5: with a press callback registered and no wait in progress, a press is
delivered synchronously to the callback and not queued, and over any later
event sequence the mouse-press queue never grows, so no such press ever shows
up in a later get_new_mouse_clicks call: delivered or queued, never both. -/
theorem press_callback_exclusive (s : CanvasState) (e : MouseEvent) (es : List Event)
    (hcb : s.onMousePressedSet = true) (hw : s.currently_waiting_for_click = false) :
    (mouse_pressed s e).pressedLog = s.pressedLog ++ [e]
    ∧ (mouse_pressed s e).mouse_presses = s.mouse_presses
    ∧ (handleEvents s es).mouse_presses = s.mouse_presses
    ∧ (get_new_mouse_clicks (handleEvents s es)).1 = s.mouse_presses := by
  have hq := handleEvents_queue_frozen es s hcb hw
  refine ⟨?_, ?_, hq, hq⟩ <;> simp [mouse_pressed, hcb, hw]

/-- A canvas with a mouse-press callback registered, for the C5 witness. -/
def cbState : CanvasState :=
  { initCanvas with onMousePressedSet := true }

theorem press_callback_exclusive_witness :
    (mouse_pressed cbState ⟨5, 6⟩).pressedLog = cbState.pressedLog ++ [⟨5, 6⟩]
    ∧ (mouse_pressed cbState ⟨5, 6⟩).mouse_presses = cbState.mouse_presses
    ∧ (handleEvents cbState [Event.mousePress ⟨5, 6⟩]).mouse_presses = cbState.mouse_presses
    ∧ (get_new_mouse_clicks (handleEvents cbState [Event.mousePress ⟨5, 6⟩])).1
        = cbState.mouse_presses :=
  press_callback_exclusive cbState ⟨5, 6⟩ [Event.mousePress ⟨5, 6⟩] rfl rfl

theorem waitLoop_step (w : CanvasState) (e : Event) (es : List Event)
    (h : w.wait_for_click_click_happened = false) :
    waitLoop w (e :: es) = waitLoop (handleEvent w e) es := by
  simp [waitLoop, h]

/-- C9: key presses arriving while wait_for_click blocks are not suppressed:
the wait still returns at the single release, and the key press got delivered
to the key callback when one is registered, or else appended to the key queue
where a later get_new_key_presses call returns it; only the mouse events are
consumed by the wait. -/
theorem keys_not_suppressed_during_wait (s : CanvasState) (k : KeyEvent)
    (r : MouseEvent) (rest : List Event) :
    ∃ t : CanvasState,
      wait_for_click s (Event.keyPress k :: Event.mouseRelease r :: rest) = some (t, rest)
      ∧ t.currently_waiting_for_click = false
      ∧ t.mouse_presses = s.mouse_presses
      ∧ (s.onKeyPressedSet = true →
          t.keyLog = s.keyLog ++ [k] ∧ t.key_presses = s.key_presses)
      ∧ (s.onKeyPressedSet = false →
          t.key_presses = s.key_presses ++ [k]
          ∧ (get_new_key_presses t).1 = s.key_presses ++ [k]) := by
  have hch : (key_pressed (startWait s) k).wait_for_click_click_happened = false := by
    unfold key_pressed startWait
    split_ifs <;> rfl
  have hw : (key_pressed (startWait s) k).currently_waiting_for_click = true := by
    unfold key_pressed startWait
    split_ifs <;> rfl
  refine ⟨finishWait (key_pressed (startWait s) k), ?_, rfl, ?_, ?_, ?_⟩
  · unfold wait_for_click
    rw [waitLoop_step _ _ _ (by simp [startWait])]
    show (match waitLoop (key_pressed (startWait s) k)
            (Event.mouseRelease r :: rest) with
          | none => none
          | some (t, rest) => some (finishWait t, rest)) = _
    rw [waitLoop_step _ _ _ hch]
    show (match waitLoop (mouse_released (key_pressed (startWait s) k) r) rest with
          | none => none
          | some (t, rest) => some (finishWait t, rest)) = _
    rw [mouse_released_waiting _ r hw, waitLoop_done _ rfl rest]
    rfl
  · unfold finishWait key_pressed startWait
    split_ifs <;> rfl
  · intro hb
    refine ⟨?_, ?_⟩ <;> simp [finishWait, key_pressed, startWait, hb]
  · intro hb
    refine ⟨?_, ?_⟩ <;> simp [finishWait, key_pressed, startWait, get_new_key_presses, hb]

theorem handleEvent_mouse_presses_source (s : CanvasState) (e : Event) (m : MouseEvent)
    (h : m ∈ (handleEvent s e).mouse_presses) :
    m ∈ s.mouse_presses ∨ e = Event.mousePress m := by
  cases e with
  | mousePress p =>
    unfold handleEvent mouse_pressed at h
    split_ifs at h
    · exact Or.inl h
    · rcases List.mem_append.mp h with h1 | h1
      · exact Or.inl h1
      · simp at h1
        subst h1
        exact Or.inr rfl
    · exact Or.inl h
  | mouseRelease p =>
    unfold handleEvent mouse_released at h
    split_ifs at h <;> exact Or.inl h
  | keyPress p =>
    unfold handleEvent key_pressed at h
    split_ifs at h <;> exact Or.inl h

theorem handleEvents_mouse_presses_source (es : List Event) :
    ∀ (s : CanvasState) (m : MouseEvent),
      m ∈ (handleEvents s es).mouse_presses →
      m ∈ s.mouse_presses ∨ Event.mousePress m ∈ es := by
  induction es with
  | nil => intro s m h; exact Or.inl h
  | cons e es ih =>
    intro s m h
    rcases ih (handleEvent s e) m h with h1 | h1
    · rcases handleEvent_mouse_presses_source s e m h1 with h2 | h2
      · exact Or.inl h2
      · exact Or.inr (by simp [h2])
    · exact Or.inr (List.mem_cons_of_mem _ h1)

/-- C10: a release arriving while no wait is in progress never touches either
queue: it is delivered to the release callback when one is registered and
otherwise only records the click flag; and whatever events arrive, every
entry of the list get_new_mouse_clicks would return traces back to a press
event, never to a release. -/
theorem release_never_queued (s : CanvasState) (e : MouseEvent) (es : List Event)
    (hw : s.currently_waiting_for_click = false) :
    (mouse_released s e).mouse_presses = s.mouse_presses
    ∧ (mouse_released s e).key_presses = s.key_presses
    ∧ (s.onMouseReleasedSet = true →
        (mouse_released s e).releasedLog = s.releasedLog ++ [e])
    ∧ (s.onMouseReleasedSet = false →
        mouse_released s e = { s with wait_for_click_click_happened := true })
    ∧ (∀ m : MouseEvent, m ∈ (handleEvents s es).mouse_presses →
        m ∈ s.mouse_presses ∨ Event.mousePress m ∈ es) := by
  refine ⟨?_, ?_, ?_, ?_, fun m hm => handleEvents_mouse_presses_source es s m hm⟩
  · unfold mouse_released
    split_ifs <;> rfl
  · unfold mouse_released
    split_ifs <;> rfl
  · intro hb
    simp [mouse_released, hw, hb]
  · intro hb
    simp [mouse_released, hw, hb]

theorem release_never_queued_witness :
    (mouse_released initCanvas ⟨1, 2⟩).mouse_presses = initCanvas.mouse_presses
    ∧ (mouse_released initCanvas ⟨1, 2⟩).key_presses = initCanvas.key_presses
    ∧ (initCanvas.onMouseReleasedSet = true →
        (mouse_released initCanvas ⟨1, 2⟩).releasedLog = initCanvas.releasedLog ++ [⟨1, 2⟩])
    ∧ (initCanvas.onMouseReleasedSet = false →
        mouse_released initCanvas ⟨1, 2⟩
          = { initCanvas with wait_for_click_click_happened := true })
    ∧ (∀ m : MouseEvent, m ∈ (handleEvents initCanvas []).mouse_presses →
        m ∈ initCanvas.mouse_presses ∨ Event.mousePress m ∈ ([] : List Event)) :=
  release_never_queued initCanvas ⟨1, 2⟩ [] rfl

end Graphics
